import Mathlib

/-
  Shallow embedding of the core of iran_osint_v3_complete.py:
  the sqlite-backed Database tables, the entity managers
  (SubjectManager, MonitorManager, FindingsManager, ContactsManager),
  the SearchGenerator, and the HTTP request routing of RequestHandler.

  Conventions of the embedding:
  - sqlite rows are Lean structures; a column that an INSERT never
    supplies and whose schema default is NULL is an Option field.
  - AUTOINCREMENT ids are modelled by a per-table next-id counter in DB,
    starting at 1, as sqlite does.
  - datetime.now(timezone.utc).isoformat() is nondeterministic, so every
    mutating manager operation takes the timestamp as an explicit
    argument `now`.
  - SQL ORDER BY created_at DESC is modelled by a deterministic insertion
    sort on the created_at string; sqlite leaves the order of ties
    unspecified, and no claim below depends on the order of results.
  - SQL GROUP BY is modelled by first-occurrence deduplication of the
    grouped values; sqlite does not guarantee a group order either, and
    no claim depends on it.
  - JSON values produced by the managers and the router are modelled by
    the inductive J below. Request bodies are modelled as string-valued
    key-value lists (the dashboard only ever sends string fields; a
    non-string field would make the Python managers fail on a str method
    and is outside every claim).
  - The source never issues PRAGMA foreign_keys, so sqlite does not
    enforce the findings.subject_id foreign key: deletes neither cascade
    nor get blocked. The model therefore has no foreign-key checks.
-/

namespace Osint

/-- JSON-style values, as produced by json.dumps on sqlite rows and on the
dicts returned by the managers. -/
inductive J where
  | str : String → J
  | num : Int → J
  | null : J
  | obj : List (String × J) → J
  | arr : List J → J

/-- A JSON object payload, before wrapping in J.obj. -/
abbrev JObj := List (String × J)

/-- Row of the subjects table.  Columns an INSERT never supplies default to
NULL (Option, none) except sanctions_checked whose schema default is 0. -/
structure Subject where
  id : Nat
  name_en : String
  name_fa : String
  aliases : Option String := none
  location_spotted : String
  country : Option String := none
  event_description : String
  linkedin_url : Option String := none
  linkedin_headline : Option String := none
  linkedin_companies : Option String := none
  linkedin_education : Option String := none
  twitter_url : Option String := none
  sanctions_checked : Nat := 0
  sanctions_hits : Option String := none
  risk_level : String
  risk_indicators : Option String := none
  status : String
  notes : String
  created_at : String
  updated_at : Option String := none
deriving DecidableEq, Repr

/-- Row of the twitter_accounts table. -/
structure TwitterAccount where
  id : Nat
  username : String
  display_name : Option String := none
  description : String
  category : Option String := none
  is_active : Bool
  created_at : String
deriving DecidableEq, Repr

/-- Row of the news_sources table (language has schema default en). -/
structure NewsSource where
  id : Nat
  name : String
  url : String
  description : String
  category : Option String := none
  language : String := "en"
  is_active : Bool
  created_at : String
deriving DecidableEq, Repr

/-- Row of the findings table. -/
structure Finding where
  id : Nat
  title : String
  finding_type : String
  description : String
  source_url : String
  source_name : String
  subject_id : Option Int
  tags : String
  importance : String
  verified : Bool
  notes : Option String := none
  created_at : String
  updated_at : Option String := none
deriving DecidableEq, Repr

/-- Row of the user_contacts table. -/
structure Contact where
  id : Nat
  name : String
  contact_type : String
  email : String
  phone : Option String := none
  url : String
  description : String
  notes : Option String := none
  created_at : String
deriving DecidableEq, Repr

/-- The whole sqlite database: one list per table plus the AUTOINCREMENT
counters (sqlite hands out increasing rowids starting at 1). -/
structure DB where
  subjects : List Subject
  twitter : List TwitterAccount
  news : List NewsSource
  findings : List Finding
  contacts : List Contact
  nextSubject : Nat
  nextTwitter : Nat
  nextNews : Nat
  nextFinding : Nat
  nextContact : Nat
deriving DecidableEq, Repr

/-- A fresh database, as _init_tables leaves it. -/
def emptyDB : DB :=
  { subjects := [], twitter := [], news := [], findings := [], contacts := []
    nextSubject := 1, nextTwitter := 1, nextNews := 1, nextFinding := 1, nextContact := 1 }

/-! ### Generic list helpers mirroring the SQL fragments -/

/-- ORDER BY key DESC, as an insertion sort on a string key (ties keep a
fixed order; sqlite does not specify one). -/
def insertDescBy {α : Type} (key : α → String) (r : α) : List α → List α
  | [] => [r]
  | x :: xs => if key r < key x then x :: insertDescBy key r xs else r :: x :: xs

/-- Sort a result set by a string key, descending. -/
def sortDescBy {α : Type} (key : α → String) : List α → List α
  | [] => []
  | x :: xs => insertDescBy key x (sortDescBy key xs)

/-- Python truthiness of an optional filter value: a WHERE clause is added
only when the argument is neither None nor the empty string. -/
def filterPass (filt : Option String) (v : String) : Bool :=
  match filt with
  | none => true
  | some s => if s == "" then true else v == s

/-! ### SubjectManager -/

/-- SubjectManager.add: inserts unconditionally (no validation of name_en
anywhere in the source) with status New and risk_level Unknown, and
returns the success dict with the new id. -/
def subjectAdd (db : DB) (now name_en name_fa location event notes : String) :
    JObj × DB :=
  let s : Subject :=
    { id := db.nextSubject, name_en := name_en, name_fa := name_fa,
      location_spotted := location, event_description := event, notes := notes,
      status := "New", risk_level := "Unknown", created_at := now }
  ([("status", J.str "success"), ("id", J.num db.nextSubject), ("name", J.str name_en)],
   { db with subjects := db.subjects ++ [s], nextSubject := db.nextSubject + 1 })

/-- SubjectManager.get: SELECT * FROM subjects WHERE id = ? (first row). -/
def subjectGet (db : DB) (sid : Int) : Option Subject :=
  db.subjects.find? (fun r => ((r.id : Int) == sid))

/-- SubjectManager.get_all with the optional status / risk_level filters
(a filter is applied only when truthy) and ORDER BY created_at DESC. -/
def subjectGetAll (db : DB) (status risk_level : Option String) : List Subject :=
  sortDescBy (fun r => r.created_at)
    (db.subjects.filter (fun r => filterPass status r.status && filterPass risk_level r.risk_level))

/-- Field updates a PUT body can request on a subject row.  The source
passes the JSON body through as SQL SET clauses; string-valued fields for
the known columns are modelled (a body naming an unknown column would make
sqlite raise, which do_PUT turns into a 400 - outside every claim here). -/
structure SubjectPatch where
  name_en : Option String := none
  name_fa : Option String := none
  aliases : Option String := none
  location_spotted : Option String := none
  country : Option String := none
  event_description : Option String := none
  linkedin_url : Option String := none
  linkedin_headline : Option String := none
  linkedin_companies : Option String := none
  linkedin_education : Option String := none
  twitter_url : Option String := none
  sanctions_hits : Option String := none
  risk_level : Option String := none
  risk_indicators : Option String := none
  status : Option String := none
  notes : Option String := none
  created_at : Option String := none
deriving DecidableEq, Repr

/-- Apply a patch to one subject row, stamping updated_at (the manager
always overwrites any updated_at in the body with now). -/
def applyPatch (p : SubjectPatch) (now : String) (r : Subject) : Subject :=
  { r with
    name_en := p.name_en.getD r.name_en
    name_fa := p.name_fa.getD r.name_fa
    aliases := match p.aliases with | some v => some v | none => r.aliases
    location_spotted := p.location_spotted.getD r.location_spotted
    country := match p.country with | some v => some v | none => r.country
    event_description := p.event_description.getD r.event_description
    linkedin_url := match p.linkedin_url with | some v => some v | none => r.linkedin_url
    linkedin_headline := match p.linkedin_headline with | some v => some v | none => r.linkedin_headline
    linkedin_companies := match p.linkedin_companies with | some v => some v | none => r.linkedin_companies
    linkedin_education := match p.linkedin_education with | some v => some v | none => r.linkedin_education
    twitter_url := match p.twitter_url with | some v => some v | none => r.twitter_url
    sanctions_hits := match p.sanctions_hits with | some v => some v | none => r.sanctions_hits
    risk_level := p.risk_level.getD r.risk_level
    risk_indicators := match p.risk_indicators with | some v => some v | none => r.risk_indicators
    status := p.status.getD r.status
    notes := p.notes.getD r.notes
    created_at := p.created_at.getD r.created_at
    updated_at := some now }

/-- SubjectManager.update: UPDATE ... WHERE id = ? (silent no-op when the
id matches no row), always returns the success dict. -/
def subjectUpdate (db : DB) (now : String) (sid : Int) (p : SubjectPatch) : JObj × DB :=
  ([("status", J.str "success"), ("id", J.num sid)],
   { db with subjects := db.subjects.map (fun r => if (r.id : Int) == sid then applyPatch p now r else r) })

/-- SubjectManager.delete: DELETE FROM subjects WHERE id = ? (hard delete,
silent no-op when absent), always returns the success dict. -/
def subjectDelete (db : DB) (sid : Int) : JObj × DB :=
  ([("status", J.str "success"), ("id", J.num sid)],
   { db with subjects := db.subjects.filter (fun r => !((r.id : Int) == sid)) })

/-- Result shape of SubjectManager.get_statistics. -/
structure Stats where
  total : Nat
  by_status : List (String × Nat)
  by_risk : List (String × Nat)
deriving DecidableEq, Repr

/-- SubjectManager.get_statistics: COUNT(*), GROUP BY status, GROUP BY
risk_level. -/
def subjectStatistics (db : DB) : Stats :=
  let sts := db.subjects.map (fun r => r.status)
  let rks := db.subjects.map (fun r => r.risk_level)
  { total := db.subjects.length
    by_status := sts.dedup.map (fun s => (s, sts.count s))
    by_risk := rks.dedup.map (fun s => (s, rks.count s)) }

/-! ### MonitorManager -/

/-- Python str.strip() whitespace test (ASCII part). -/
def pyIsSpace (c : Char) : Bool :=
  c == ' ' || c == '\t' || c == '\n' || c == '\r' || c == '\x0B' || c == '\x0C'

/-- Python str.strip() on a char list. -/
def pyStripList (l : List Char) : List Char :=
  ((l.dropWhile pyIsSpace).reverse.dropWhile pyIsSpace).reverse

/-- Twitter username normalization from add_twitter:
username.lstrip("@").strip() - first every leading "@", then surrounding
whitespace, in that order. -/
def normalizeTwitter (u : String) : String :=
  ⟨pyStripList (u.data.dropWhile (fun c => c == '@'))⟩

/-- MonitorManager.add_twitter.  The capacity check counts ALL rows of the
twitter_accounts table (db.count), not only the active ones. -/
def monitorAddTwitter (db : DB) (now username description : String) : JObj × DB :=
  let u := normalizeTwitter username
  if db.twitter.length ≥ 10 then
    ([("status", J.str "error"), ("message", J.str "Maximum 10 accounts reached")], db)
  else if (db.twitter.find? (fun a => a.username == u)).isSome then
    ([("status", J.str "error"), ("message", J.str "Account already exists")], db)
  else
    ([("status", J.str "success"), ("id", J.num db.nextTwitter), ("username", J.str u)],
     { db with
        twitter := db.twitter ++
          [{ id := db.nextTwitter, username := u, description := description,
             is_active := true, created_at := now }]
        nextTwitter := db.nextTwitter + 1 })

/-- MonitorManager.get_twitter: active accounts, newest first. -/
def monitorGetTwitter (db : DB) : List TwitterAccount :=
  sortDescBy (fun a => a.created_at) (db.twitter.filter (fun a => a.is_active))

/-- MonitorManager.delete_twitter: hard delete by id, any status. -/
def monitorDeleteTwitter (db : DB) (aid : Int) : JObj × DB :=
  ([("status", J.str "success")],
   { db with twitter := db.twitter.filter (fun a => !((a.id : Int) == aid)) })

/-- Python str.startswith: the first len(pre) characters equal pre. -/
def pathHasPre (pre s : String) : Bool :=
  s.data.take pre.data.length == pre.data

/-- News URL normalization from add_news: prefix https:// unless the url
already starts with http:// or https://. -/
def normalizeNewsUrl (url : String) : String :=
  if pathHasPre "http://" url || pathHasPre "https://" url then url
  else "https://" ++ url

/-- MonitorManager.add_news: normalize the url, then the same capacity and
duplicate checks as Twitter, keyed on the normalized url. -/
def monitorAddNews (db : DB) (now name url description : String) : JObj × DB :=
  let u := normalizeNewsUrl url
  if db.news.length ≥ 10 then
    ([("status", J.str "error"), ("message", J.str "Maximum 10 sources reached")], db)
  else if (db.news.find? (fun s => s.url == u)).isSome then
    ([("status", J.str "error"), ("message", J.str "Source already exists")], db)
  else
    ([("status", J.str "success"), ("id", J.num db.nextNews), ("name", J.str name)],
     { db with
        news := db.news ++
          [{ id := db.nextNews, name := name, url := u, description := description,
             is_active := true, created_at := now }]
        nextNews := db.nextNews + 1 })

/-- MonitorManager.get_news: active sources, newest first. -/
def monitorGetNews (db : DB) : List NewsSource :=
  sortDescBy (fun s => s.created_at) (db.news.filter (fun s => s.is_active))

/-- MonitorManager.delete_news: hard delete by id. -/
def monitorDeleteNews (db : DB) (sid : Int) : JObj × DB :=
  ([("status", J.str "success")],
   { db with news := db.news.filter (fun s => !((s.id : Int) == sid)) })

/-! ### FindingsManager -/

/-- FindingsManager.add: inserts unconditionally with verified = 0. -/
def findingsAdd (db : DB) (now title finding_type description source_url source_name : String)
    (subject_id : Option Int) (tags importance : String) : JObj × DB :=
  ([("status", J.str "success"), ("id", J.num db.nextFinding), ("title", J.str title)],
   { db with
      findings := db.findings ++
        [{ id := db.nextFinding, title := title, finding_type := finding_type,
           description := description, source_url := source_url, source_name := source_name,
           subject_id := subject_id, tags := tags, importance := importance,
           verified := false, created_at := now }]
      nextFinding := db.nextFinding + 1 })

/-- FindingsManager.get: SELECT * FROM findings WHERE id = ? (first row). -/
def findingsGet (db : DB) (fid : Int) : Option Finding :=
  db.findings.find? (fun f => ((f.id : Int) == fid))

/-- FindingsManager.get_all: LEFT JOIN against subjects to denormalize the
subject name, optional filters, newest first. -/
def findingsGetAll (db : DB) (finding_type importance : Option String) :
    List (Finding × Option String) :=
  sortDescBy (fun fp => fp.1.created_at)
    ((db.findings.filter (fun f =>
        filterPass finding_type f.finding_type && filterPass importance f.importance)).map
      (fun f => (f, (db.subjects.find? (fun s => some (s.id : Int) == f.subject_id)).map
        (fun s => s.name_en))))

/-- FindingsManager.verify: set the verified flag and updated_at. -/
def findingsVerify (db : DB) (now : String) (fid : Int) (verified : Bool) : JObj × DB :=
  ([("status", J.str "success")],
   { db with findings := db.findings.map (fun f =>
      if (f.id : Int) == fid then { f with verified := verified, updated_at := some now } else f) })

/-- FindingsManager.delete: hard delete by id. -/
def findingsDelete (db : DB) (fid : Int) : JObj × DB :=
  ([("status", J.str "success")],
   { db with findings := db.findings.filter (fun f => !((f.id : Int) == fid)) })

/-! ### ContactsManager -/

/-- ContactsManager.add: inserts unconditionally. -/
def contactsAdd (db : DB) (now name contact_type email url description : String) : JObj × DB :=
  ([("status", J.str "success"), ("id", J.num db.nextContact), ("name", J.str name)],
   { db with
      contacts := db.contacts ++
        [{ id := db.nextContact, name := name, contact_type := contact_type,
           email := email, url := url, description := description, created_at := now }]
      nextContact := db.nextContact + 1 })

/-- ContactsManager.get_user: all user contacts, newest first. -/
def contactsGetUser (db : DB) : List Contact :=
  sortDescBy (fun c => c.created_at) db.contacts

/-- ContactsManager.delete: hard delete by id. -/
def contactsDelete (db : DB) (cid : Int) : JObj × DB :=
  ([("status", J.str "success")],
   { db with contacts := db.contacts.filter (fun c => !((c.id : Int) == cid)) })

/-! ### urllib.parse.quote and SearchGenerator -/

/-- Bytes urllib.parse.quote leaves untouched with the default safe set:
ASCII letters, digits, the marks underscore dot hyphen tilde, and the
default safe character slash. -/
def quoteSafeByte (b : UInt8) : Bool :=
  (65 ≤ b.toNat && b.toNat ≤ 90) || (97 ≤ b.toNat && b.toNat ≤ 122) ||
  (48 ≤ b.toNat && b.toNat ≤ 57) ||
  b.toNat == 95 || b.toNat == 46 || b.toNat == 45 || b.toNat == 126 || b.toNat == 47

/-- Upper-case hex digit of a value below 16. -/
def hexChar (n : Nat) : Char :=
  if n < 10 then Char.ofNat (48 + n) else Char.ofNat (55 + n)

/-- Percent-encode one byte, as urllib.parse.quote does. -/
def quoteByte (b : UInt8) : String :=
  if quoteSafeByte b then String.singleton (Char.ofNat b.toNat)
  else "%" ++ String.singleton (hexChar (b.toNat / 16)) ++ String.singleton (hexChar (b.toNat % 16))

/-- Percent-encode a byte sequence. -/
def quoteBytes : List UInt8 → String
  | [] => ""
  | b :: bs => quoteByte b ++ quoteBytes bs

/-- urllib.parse.quote with its defaults: encode the string as UTF-8 and
percent-encode every byte outside the safe set. -/
def pyQuote (s : String) : String :=
  quoteBytes (s.data.flatMap String.utf8EncodeChar)

/-- SearchGenerator.generate_all: the fixed URL templates of the source, in
dict insertion order; the persian category is appended only when name_fa
is truthy.  (The company parameter of the source is unused there.) -/
def generateAll (name name_fa : String) : List (String × List (String × String)) :=
  [("linkedin",
    [("people_search", "https://www.linkedin.com/search/results/people/?keywords=" ++ pyQuote name),
     ("google_public", "https://www.google.com/search?q=" ++ pyQuote ("site:linkedin.com/in \"" ++ name ++ "\"")),
     ("iran_connection", "https://www.google.com/search?q=" ++ pyQuote ("site:linkedin.com/in \"" ++ name ++ "\" (Iran OR Tehran OR IRGC)"))]),
   ("sanctions",
    [("ofac", "https://sanctionssearch.ofac.treas.gov/Details.aspx?id=" ++ pyQuote name),
     ("opensanctions", "https://www.opensanctions.org/search/?q=" ++ pyQuote name),
     ("uk_sanctions", "https://search-uk-sanctions-list.service.gov.uk/?searchTerm=" ++ pyQuote name),
     ("eu_sanctions", "https://www.sanctionsmap.eu/#/main?search=" ++ pyQuote name)]),
   ("corporate",
    [("opencorporates", "https://opencorporates.com/companies?q=" ++ pyQuote name),
     ("uk_companies", "https://find-and-update.company-information.service.gov.uk/search?q=" ++ pyQuote name),
     ("icij_offshore", "https://offshoreleaks.icij.org/search?q=" ++ pyQuote name)]),
   ("social_media",
    [("twitter", "https://twitter.com/search?q=" ++ pyQuote name ++ "&f=user"),
     ("instagram", "https://www.google.com/search?q=" ++ pyQuote ("site:instagram.com \"" ++ name ++ "\"")),
     ("facebook", "https://www.google.com/search?q=" ++ pyQuote ("site:facebook.com \"" ++ name ++ "\""))]),
   ("web_search",
    [("google", "https://www.google.com/search?q=" ++ pyQuote name),
     ("google_news", "https://www.google.com/search?q=" ++ pyQuote name ++ "&tbm=nws"),
     ("duckduckgo", "https://duckduckgo.com/?q=" ++ pyQuote name)])]
  ++ (if name_fa == "" then [] else
   [("persian",
     [("google", "https://www.google.com/search?q=" ++ pyQuote name_fa),
      ("linkedin", "https://www.linkedin.com/search/results/people/?keywords=" ++ pyQuote name_fa),
      ("twitter", "https://twitter.com/search?q=" ++ pyQuote name_fa)])])

/-! ### JSON serialization of rows (sqlite Row dicts through json.dumps) -/

/-- A nullable text column as JSON. -/
def jOptS : Option String → J
  | none => J.null
  | some s => J.str s

/-- Serialize a subject row in schema column order; sqlite INTEGER flags
come out as numbers. -/
def Subject.toJ (r : Subject) : J :=
  J.obj [("id", J.num r.id), ("name_en", J.str r.name_en), ("name_fa", J.str r.name_fa),
    ("aliases", jOptS r.aliases), ("location_spotted", J.str r.location_spotted),
    ("country", jOptS r.country), ("event_description", J.str r.event_description),
    ("linkedin_url", jOptS r.linkedin_url), ("linkedin_headline", jOptS r.linkedin_headline),
    ("linkedin_companies", jOptS r.linkedin_companies),
    ("linkedin_education", jOptS r.linkedin_education), ("twitter_url", jOptS r.twitter_url),
    ("sanctions_checked", J.num r.sanctions_checked), ("sanctions_hits", jOptS r.sanctions_hits),
    ("risk_level", J.str r.risk_level), ("risk_indicators", jOptS r.risk_indicators),
    ("status", J.str r.status), ("notes", J.str r.notes),
    ("created_at", J.str r.created_at), ("updated_at", jOptS r.updated_at)]

/-- Serialize a twitter_accounts row. -/
def TwitterAccount.toJ (a : TwitterAccount) : J :=
  J.obj [("id", J.num a.id), ("username", J.str a.username),
    ("display_name", jOptS a.display_name), ("description", J.str a.description),
    ("category", jOptS a.category), ("is_active", J.num (if a.is_active then 1 else 0)),
    ("created_at", J.str a.created_at)]

/-- Serialize a news_sources row. -/
def NewsSource.toJ (s : NewsSource) : J :=
  J.obj [("id", J.num s.id), ("name", J.str s.name), ("url", J.str s.url),
    ("description", J.str s.description), ("category", jOptS s.category),
    ("language", J.str s.language), ("is_active", J.num (if s.is_active then 1 else 0)),
    ("created_at", J.str s.created_at)]

/-- Serialize a findings row. -/
def Finding.toJ (f : Finding) : J :=
  J.obj [("id", J.num f.id), ("title", J.str f.title), ("finding_type", J.str f.finding_type),
    ("description", J.str f.description), ("source_url", J.str f.source_url),
    ("source_name", J.str f.source_name),
    ("subject_id", match f.subject_id with | none => J.null | some i => J.num i),
    ("tags", J.str f.tags), ("importance", J.str f.importance),
    ("verified", J.num (if f.verified then 1 else 0)), ("notes", jOptS f.notes),
    ("created_at", J.str f.created_at), ("updated_at", jOptS f.updated_at)]

/-- Serialize a findings row joined with the denormalized subject name. -/
def joinedFindingToJ (fp : Finding × Option String) : J :=
  match fp.1.toJ with
  | J.obj fields => J.obj (fields ++ [("subject_name", jOptS fp.2)])
  | j => j

/-- Serialize a user_contacts row. -/
def Contact.toJ (c : Contact) : J :=
  J.obj [("id", J.num c.id), ("name", J.str c.name), ("contact_type", J.str c.contact_type),
    ("email", J.str c.email), ("phone", jOptS c.phone), ("url", J.str c.url),
    ("description", J.str c.description), ("notes", jOptS c.notes),
    ("created_at", J.str c.created_at)]

/-- Serialize the statistics dict. -/
def Stats.toJ (st : Stats) : J :=
  J.obj [("total", J.num st.total),
    ("by_status", J.obj (st.by_status.map (fun p => (p.1, J.num p.2)))),
    ("by_risk", J.obj (st.by_risk.map (fun p => (p.1, J.num p.2))))]

/-- Serialize the search URL mapping. -/
def urlsToJ (l : List (String × List (String × String))) : J :=
  J.obj (l.map (fun c => (c.1, J.obj (c.2.map (fun kv => (kv.1, J.str kv.2))))))

/-! ### Request routing (RequestHandler) -/

/-- Digit run of a Python int literal: digits with single underscores
strictly between digits. -/
def pyDigitsCore : Nat → List Char → Option Nat
  | acc, [] => some acc
  | acc, '_' :: c :: rest =>
      if c.isDigit then pyDigitsCore (acc * 10 + (c.toNat - 48)) rest else none
  | acc, c :: rest =>
      if c.isDigit then pyDigitsCore (acc * 10 + (c.toNat - 48)) rest else none

/-- Parse a nonempty digit run (first char must be a digit). -/
def pyIntOfDigits : List Char → Option Nat
  | [] => none
  | c :: rest => if c.isDigit then pyDigitsCore (c.toNat - 48) rest else none

/-- Python int(str) on ASCII input: surrounding whitespace, an optional
sign, then decimal digits with optional single underscores between
digits; anything else raises ValueError (here: none). -/
def pyInt (s : String) : Option Int :=
  match pyStripList s.data with
  | '+' :: rest => (pyIntOfDigits rest).map (fun n => (n : Int))
  | '-' :: rest => (pyIntOfDigits rest).map (fun n => -(n : Int))
  | l => (pyIntOfDigits l).map (fun n => (n : Int))

/-- path.split on slash, last element: equivalently, the suffix after the
last slash (the whole string when no slash occurs). -/
def lastSeg (p : String) : String :=
  ⟨(p.data.reverse.takeWhile (fun c => !(c == '/'))).reverse⟩

/-- The ValueError text of int() on a non-numeric string, as str(e) renders
it in do_PUT (for segments without characters repr would escape). -/
def intErrMsg (seg : String) : String :=
  "invalid literal for int() with base 10: \x27" ++ seg ++ "\x27"

/-- HTTP method of a request. -/
inductive Method where
  | get | post | put | delete | options
deriving DecidableEq, Repr

/-- A parsed HTTP request: method, path (query string already split off),
the query parameters the routes read (parse_qs drops empty values, so an
empty parameter arrives as none), a string-valued JSON body for POST, and
the body of a subject PUT as a field patch. -/
structure Request where
  method : Method
  path : String
  qStatus : Option String := none
  qRisk : Option String := none
  qName : Option String := none
  qNameFa : Option String := none
  qFindingType : Option String := none
  qImportance : Option String := none
  body : List (String × String) := []
  patch : SubjectPatch := {}

/-- Response body: JSON, the dashboard HTML, or nothing (404 / OPTIONS). -/
inductive RespBody where
  | json : J → RespBody
  | html
  | empty

/-- An HTTP response: status code and body. -/
structure Response where
  code : Nat
  body : RespBody

/-- send_json on {error: Invalid ID} with status 400. -/
def invalidIdResp : Response := ⟨400, RespBody.json (J.obj [("error", J.str "Invalid ID")])⟩

/-- The bare 404 for unmatched routes. -/
def notFoundResp : Response := ⟨404, RespBody.empty⟩

/-- data.get of the POST body with a default. -/
def bget (b : List (String × String)) (k d : String) : String :=
  match b.find? (fun kv => kv.1 == k) with
  | some kv => kv.2
  | none => d

/-- do_GET: the chain of path tests of the source, in order.  GET routes
never mutate the database. -/
def doGET (db : DB) (req : Request) : Response :=
  let path := req.path
  if path == "/" || path == "/index.html" then ⟨200, RespBody.html⟩
  else if path == "/api/subjects" then
    ⟨200, RespBody.json (J.arr ((subjectGetAll db req.qStatus req.qRisk).map Subject.toJ))⟩
  else if pathHasPre "/api/subjects/" path then
    match pyInt (lastSeg path) with
    | some sid =>
        ⟨200, RespBody.json (match subjectGet db sid with
          | some r => r.toJ
          | none => J.obj [("error", J.str "Not found")])⟩
    | none => invalidIdResp
  else if path == "/api/search" then
    let n := req.qName.getD ""
    if n == "" then ⟨400, RespBody.json (J.obj [("error", J.str "Name required")])⟩
    else ⟨200, RespBody.json (urlsToJ (generateAll n (req.qNameFa.getD "")))⟩
  else if path == "/api/stats" then ⟨200, RespBody.json (subjectStatistics db).toJ⟩
  else if path == "/api/monitor/twitter" then
    ⟨200, RespBody.json (J.arr ((monitorGetTwitter db).map TwitterAccount.toJ))⟩
  else if path == "/api/monitor/news" then
    ⟨200, RespBody.json (J.arr ((monitorGetNews db).map NewsSource.toJ))⟩
  else if path == "/api/findings" then
    ⟨200, RespBody.json (J.arr ((findingsGetAll db req.qFindingType req.qImportance).map joinedFindingToJ))⟩
  else if pathHasPre "/api/findings/" path then
    match pyInt (lastSeg path) with
    | some fid =>
        ⟨200, RespBody.json (match findingsGet db fid with
          | some f => f.toJ
          | none => J.obj [("error", J.str "Not found")])⟩
    | none => invalidIdResp
  else if path == "/api/contacts/user" then
    ⟨200, RespBody.json (J.arr ((contactsGetUser db).map Contact.toJ))⟩
  else notFoundResp

/-- do_POST: every matched route hands the manager result to send_json with
the default status 200; note that the findings route never forwards a
subject_id from the body. -/
def doPOST (db : DB) (now : String) (req : Request) : Response × DB :=
  if req.path == "/api/subjects" then
    let r := subjectAdd db now (bget req.body "name_en" "") (bget req.body "name_fa" "")
      (bget req.body "location" "") (bget req.body "event" "") (bget req.body "notes" "")
    (⟨200, RespBody.json (J.obj r.1)⟩, r.2)
  else if req.path == "/api/monitor/twitter" then
    let r := monitorAddTwitter db now (bget req.body "username" "") (bget req.body "description" "")
    (⟨200, RespBody.json (J.obj r.1)⟩, r.2)
  else if req.path == "/api/monitor/news" then
    let r := monitorAddNews db now (bget req.body "name" "") (bget req.body "url" "")
      (bget req.body "description" "")
    (⟨200, RespBody.json (J.obj r.1)⟩, r.2)
  else if req.path == "/api/findings" then
    let r := findingsAdd db now (bget req.body "title" "") (bget req.body "finding_type" "")
      (bget req.body "description" "") (bget req.body "source_url" "")
      (bget req.body "source_name" "") none (bget req.body "tags" "")
      (bget req.body "importance" "Medium")
    (⟨200, RespBody.json (J.obj r.1)⟩, r.2)
  else if req.path == "/api/contacts" then
    let r := contactsAdd db now (bget req.body "name" "") (bget req.body "contact_type" "")
      (bget req.body "email" "") (bget req.body "url" "") (bget req.body "description" "")
    (⟨200, RespBody.json (J.obj r.1)⟩, r.2)
  else (notFoundResp, db)

/-- do_PUT: only the subjects route exists; the int() ValueError of a bad
id segment is caught by the blanket except and rendered as str(e) with
status 400 (the body is only read after the id parses). -/
def doPUT (db : DB) (now : String) (req : Request) : Response × DB :=
  if pathHasPre "/api/subjects/" req.path then
    match pyInt (lastSeg req.path) with
    | some sid =>
        let r := subjectUpdate db now sid req.patch
        (⟨200, RespBody.json (J.obj r.1)⟩, r.2)
    | none =>
        (⟨400, RespBody.json (J.obj [("error", J.str (intErrMsg (lastSeg req.path)))])⟩, db)
  else (notFoundResp, db)

/-- do_DELETE: the five id-bearing prefixes, in source order; a bad id
segment yields 400 {error: Invalid ID} on each. -/
def doDELETE (db : DB) (req : Request) : Response × DB :=
  if pathHasPre "/api/subjects/" req.path then
    match pyInt (lastSeg req.path) with
    | some sid => let r := subjectDelete db sid; (⟨200, RespBody.json (J.obj r.1)⟩, r.2)
    | none => (invalidIdResp, db)
  else if pathHasPre "/api/monitor/twitter/" req.path then
    match pyInt (lastSeg req.path) with
    | some aid => let r := monitorDeleteTwitter db aid; (⟨200, RespBody.json (J.obj r.1)⟩, r.2)
    | none => (invalidIdResp, db)
  else if pathHasPre "/api/monitor/news/" req.path then
    match pyInt (lastSeg req.path) with
    | some sid => let r := monitorDeleteNews db sid; (⟨200, RespBody.json (J.obj r.1)⟩, r.2)
    | none => (invalidIdResp, db)
  else if pathHasPre "/api/findings/" req.path then
    match pyInt (lastSeg req.path) with
    | some fid => let r := findingsDelete db fid; (⟨200, RespBody.json (J.obj r.1)⟩, r.2)
    | none => (invalidIdResp, db)
  else if pathHasPre "/api/contacts/" req.path then
    match pyInt (lastSeg req.path) with
    | some cid => let r := contactsDelete db cid; (⟨200, RespBody.json (J.obj r.1)⟩, r.2)
    | none => (invalidIdResp, db)
  else (notFoundResp, db)

/-- The full dispatcher: one request, handled synchronously. -/
def handle (db : DB) (now : String) (req : Request) : Response × DB :=
  match req.method with
  | Method.get => (doGET db req, db)
  | Method.post => doPOST db now req
  | Method.put => doPUT db now req
  | Method.delete => doDELETE db req
  | Method.options => (⟨200, RespBody.empty⟩, db)

/-- Database states reachable from a fresh database through the mutating
manager operations (the only writers in the source). -/
inductive Reachable : DB → Prop where
  | empty : Reachable emptyDB
  | subjAdd {db now a b c d e} : Reachable db → Reachable (subjectAdd db now a b c d e).2
  | subjUpdate {db now sid p} : Reachable db → Reachable (subjectUpdate db now sid p).2
  | subjDelete {db sid} : Reachable db → Reachable (subjectDelete db sid).2
  | twAdd {db now u d} : Reachable db → Reachable (monitorAddTwitter db now u d).2
  | twDelete {db aid} : Reachable db → Reachable (monitorDeleteTwitter db aid).2
  | newsAdd {db now n u d} : Reachable db → Reachable (monitorAddNews db now n u d).2
  | newsDelete {db sid} : Reachable db → Reachable (monitorDeleteNews db sid).2
  | findAdd {db now t ft d su sn sid tg imp} :
      Reachable db → Reachable (findingsAdd db now t ft d su sn sid tg imp).2
  | findVerify {db now fid v} : Reachable db → Reachable (findingsVerify db now fid v).2
  | findDelete {db fid} : Reachable db → Reachable (findingsDelete db fid).2
  | contactAdd {db now n ct e u d} : Reachable db → Reachable (contactsAdd db now n ct e u d).2
  | contactDelete {db cid} : Reachable db → Reachable (contactsDelete db cid).2

/-- Count of active twitter accounts in a state (what the spec caps at 10;
the capacity check of the source counts all rows instead). -/
def activeTwitterCount (db : DB) : Nat :=
  (db.twitter.filter (fun a => a.is_active)).length

/-- The substring relation on strings, used for: the encoded name appears
inside a generated URL. -/
def SubIn (sub s : String) : Prop :=
  ∃ p q, s.data = p ++ (sub.data ++ q)

/-! ### Helper lemmas -/

theorem mem_insertDescBy {α : Type} (key : α → String) (r x : α) (l : List α) :
    x ∈ insertDescBy key r l ↔ x = r ∨ x ∈ l := by
  induction l with
  | nil => simp [insertDescBy]
  | cons a as ih =>
      unfold insertDescBy
      by_cases h : key r < key a
      · simp only [if_pos h, List.mem_cons, ih]
        tauto
      · simp only [if_neg h, List.mem_cons]

theorem mem_sortDescBy {α : Type} (key : α → String) (x : α) (l : List α) :
    x ∈ sortDescBy key l ↔ x ∈ l := by
  induction l with
  | nil => simp [sortDescBy]
  | cons a as ih => simp [sortDescBy, mem_insertDescBy, ih]

theorem length_insertDescBy {α : Type} (key : α → String) (r : α) (l : List α) :
    (insertDescBy key r l).length = l.length + 1 := by
  induction l with
  | nil => simp [insertDescBy]
  | cons a as ih =>
      unfold insertDescBy
      split
      · simp [ih]
      · simp

theorem length_sortDescBy {α : Type} (key : α → String) (l : List α) :
    (sortDescBy key l).length = l.length := by
  induction l with
  | nil => simp [sortDescBy]
  | cons a as ih => simp [sortDescBy, length_insertDescBy, ih]

theorem quoteBytes_append (a b : List UInt8) :
    quoteBytes (a ++ b) = quoteBytes a ++ quoteBytes b := by
  induction a with
  | nil => simp [quoteBytes]
  | cons x xs ih => simp [quoteBytes, ih, String.append_assoc]

theorem pyQuote_append (a b : String) : pyQuote (a ++ b) = pyQuote a ++ pyQuote b := by
  unfold pyQuote
  rw [String.data_append, List.flatMap_append, quoteBytes_append]

theorem ne_empty_left (a b : String) (h : a ≠ "") : a ++ b ≠ "" := by
  intro hab
  apply h
  have hd : (a ++ b).data = ("" : String).data := by rw [hab]
  rw [String.data_append] at hd
  have : a.data = [] := (List.append_eq_nil.mp hd).1
  cases a
  simp_all

theorem subIn_end (lit x : String) : SubIn (pyQuote x) (lit ++ pyQuote x) :=
  ⟨lit.data, [], by simp⟩

theorem subIn_simple (lit x tail : String) : SubIn (pyQuote x) (lit ++ pyQuote x ++ tail) :=
  ⟨lit.data, tail.data, by simp⟩

theorem subIn_wrapped_end (lit pre x post : String) :
    SubIn (pyQuote x) (lit ++ pyQuote (pre ++ x ++ post)) :=
  ⟨lit.data ++ (pyQuote pre).data, (pyQuote post).data, by
    simp [pyQuote_append]⟩

/-- take of an append, cut inside the left part. -/
theorem takeLeAppend {α : Type} (n : Nat) (a b : List α) (h : n ≤ a.length) :
    (a ++ b).take n = a.take n := by
  induction a generalizing n with
  | nil => simp at h; simp [h]
  | cons x xs ih =>
      cases n with
      | zero => simp
      | succ m => simp only [List.cons_append, List.take_succ_cons, ih m (by simpa using h)]

theorem takeLenAppend {α : Type} (a b : List α) : (a ++ b).take a.length = a :=
  List.take_left a b

/-- An append with a fixed left literal is never equal to a string whose
first characters differ from that literal. -/
theorem append_ne_lit (lit seg lit2 : String)
    (h : lit2.data.take lit.data.length ≠ lit.data) : (lit ++ seg == lit2) = false := by
  apply beq_eq_false_iff_ne.mpr
  intro heq
  apply h
  rw [← heq, String.data_append, takeLenAppend]

theorem pathHasPre_append (pre t : String) : pathHasPre pre (pre ++ t) = true := by
  unfold pathHasPre
  rw [String.data_append, takeLenAppend]
  exact beq_self_eq_true _

theorem pathHasPre_of_ne (pre lit t : String)
    (hlen : pre.data.length ≤ lit.data.length)
    (hne : lit.data.take pre.data.length ≠ pre.data) :
    pathHasPre pre (lit ++ t) = false := by
  unfold pathHasPre
  rw [String.data_append, takeLeAppend _ _ _ hlen]
  exact beq_eq_false_iff_ne.mpr hne

theorem takeTakeOfLe {α : Type} (k n : Nat) (l : List α) (h : k ≤ n) :
    (l.take n).take k = l.take k := by
  induction l generalizing k n with
  | nil => simp
  | cons a as ih =>
      cases n with
      | zero => simp [Nat.le_zero.mp h]
      | succ m =>
          cases k with
          | zero => simp
          | succ j => simp [List.take_succ_cons, ih j m (Nat.succ_le_succ_iff.mp h)]

/-- A path cannot start with pre when its leading literal differs from pre
within the first k characters. -/
theorem pathHasPre_of_ne2 (pre lit t : String) (k : Nat)
    (hk1 : k ≤ lit.data.length) (hk2 : k ≤ pre.data.length)
    (hne : lit.data.take k ≠ pre.data.take k) :
    pathHasPre pre (lit ++ t) = false := by
  unfold pathHasPre
  apply beq_eq_false_iff_ne.mpr
  intro heq
  apply hne
  rw [String.data_append] at heq
  have h2 : ((lit.data ++ t.data).take pre.data.length).take k = pre.data.take k := by rw [heq]
  rw [takeTakeOfLe k _ _ hk2, takeLeAppend _ _ _ hk1] at h2
  exact h2

theorem lastSeg_of_append (lit seg : String)
    (h1 : lit.data.reverse.takeWhile (fun c => !(c == '/')) = [])
    (h2 : ∀ c ∈ seg.data, (!(c == '/')) = true) :
    lastSeg (lit ++ seg) = seg := by
  unfold lastSeg
  rw [String.data_append, List.reverse_append,
    List.takeWhile_append_of_pos (by intro c hc; exact h2 c (List.mem_reverse.mp hc)), h1]
  simp

theorem append_lit_ne (lit a b : String) (h : a ≠ b) : (lit ++ a == lit ++ b) = false := by
  apply beq_eq_false_iff_ne.mpr
  intro heq
  apply h
  have hd : (lit ++ a).data = (lit ++ b).data := by rw [heq]
  rw [String.data_append, String.data_append] at hd
  have := List.append_cancel_left hd
  cases a; cases b; simp_all

/-! ### Claims -/

/-- C1 (amended): SubjectManager.add performs no validation at all: for
every name_en, the empty string included, it returns the success dict with
the new id and appends one record with status New and risk_level Unknown. -/
theorem subjectAdd_always_succeeds (db : DB) (now n f l e no : String) :
    (subjectAdd db now n f l e no).1 =
      [("status", J.str "success"), ("id", J.num db.nextSubject), ("name", J.str n)] ∧
    ∃ s, (subjectAdd db now n f l e no).2.subjects = db.subjects ++ [s] ∧
      s.status = "New" ∧ s.risk_level = "Unknown" ∧ s.name_en = n ∧
      s.id = db.nextSubject ∧
      (subjectAdd db now n f l e no).2.nextSubject = db.nextSubject + 1 := by
  exact ⟨rfl, ⟨_, rfl, rfl, rfl, rfl, rfl, rfl⟩⟩

/-- C1 counterexample: adding a subject with empty name_en on a fresh
database does NOT fail with a validation error and does NOT insert
nothing: it returns the success dict with id 1 and stores one record. -/
theorem subjectAdd_empty_name_succeeds :
    (subjectAdd emptyDB "t" "" "" "" "" "").1 =
      [("status", J.str "success"), ("id", J.num 1), ("name", J.str "")] ∧
    (subjectAdd emptyDB "t" "" "" "" "" "").2.subjects.length = 1 :=
  ⟨rfl, rfl⟩

/-- C9: deleting a subject returns the success dict, leaves every finding
row byte-for-byte unchanged (a dangling subject_id stays stored and is
returned unchanged by FindingsManager.get), and a later delete of any
finding still succeeds exactly as it would have before.  The source never
enables sqlite foreign-key enforcement, so nothing cascades or blocks. -/
theorem subjectDelete_no_cascade (db : DB) (sid : Int)
    (_href : ∃ f ∈ db.findings, f.subject_id = some sid) :
    (subjectDelete db sid).1 = [("status", J.str "success"), ("id", J.num sid)] ∧
    (subjectDelete db sid).2.findings = db.findings ∧
    (∀ fid, findingsGet (subjectDelete db sid).2 fid = findingsGet db fid) ∧
    (∀ fid, (findingsDelete (subjectDelete db sid).2 fid).1 = [("status", J.str "success")] ∧
      (findingsDelete (subjectDelete db sid).2 fid).2.findings =
        db.findings.filter (fun f => !((f.id : Int) == fid))) :=
  ⟨rfl, rfl, fun _ => rfl, fun _ => ⟨rfl, rfl⟩⟩

/-- A finding referencing subject 1, for the C9 witness state. -/
def findingRef1 : Finding :=
  { id := 1, title := "F", finding_type := "", description := "", source_url := "",
    source_name := "", subject_id := some 1, tags := "", importance := "Medium",
    verified := false, created_at := "t" }

/-- A subject row with id 1, used by witness states. -/
def subjOne : Subject :=
  { id := 1, name_en := "A", name_fa := "", location_spotted := "",
    event_description := "", notes := "", status := "New", risk_level := "Unknown",
    created_at := "t" }

/-- Witness state for C9: one subject, one finding referencing it. -/
def dbC9 : DB :=
  { emptyDB with
    subjects := [subjOne]
    findings := [findingRef1]
    nextSubject := 2
    nextFinding := 2 }

/-- C9 witness: concrete run of subjectDelete_no_cascade on dbC9. -/
theorem subjectDelete_no_cascade_witness :
    (subjectDelete dbC9 1).2.findings = dbC9.findings ∧
    (findingsDelete (subjectDelete dbC9 1).2 1).1 = [("status", J.str "success")] :=
  ⟨(subjectDelete_no_cascade dbC9 1 ⟨findingRef1, by simp [dbC9], rfl⟩).2.1,
   ((subjectDelete_no_cascade dbC9 1 ⟨findingRef1, by simp [dbC9], rfl⟩).2.2.2 1).1⟩

/-- C10: a finding created through POST /api/findings is always stored with
subject_id null: the route never forwards a subject_id from the body, for
every request body. -/
theorem findings_post_subject_id_null (db : DB) (now : String)
    (body : List (String × String)) :
    ∃ f, (handle db now { method := Method.post, path := "/api/findings", body := body }).2.findings =
        db.findings ++ [f] ∧ f.subject_id = none :=
  ⟨_, rfl, rfl⟩

theorem filter_const_true {α : Type} (l : List α) : l.filter (fun _ => true) = l := by
  induction l with
  | nil => rfl
  | cons a as ih => simp [List.filter_cons, ih]

/-- Invariant: through the manager operations, the twitter_accounts table
never holds more than 10 rows (inserts are guarded by the count check). -/
theorem reachable_twitter_le (db : DB) (h : Reachable db) : db.twitter.length ≤ 10 := by
  induction h with
  | empty => simp [emptyDB]
  | subjAdd _ ih => exact ih
  | subjUpdate _ ih => exact ih
  | subjDelete _ ih => exact ih
  | twAdd _ ih =>
      simp only [monitorAddTwitter]
      split
      · exact ih
      · split
        · exact ih
        · simp only [List.length_append, List.length_cons, List.length_nil]
          omega
  | twDelete _ ih => exact le_trans (List.length_filter_le _ _) ih
  | newsAdd _ ih =>
      simp only [monitorAddNews]
      split
      · exact ih
      · split
        · exact ih
        · exact ih
  | newsDelete _ ih => exact ih
  | findAdd _ ih => exact ih
  | findVerify _ ih => exact ih
  | findDelete _ ih => exact ih
  | contactAdd _ ih => exact ih
  | contactDelete _ ih => exact ih

/-- C3: when at least 10 active twitter accounts are stored, add_twitter
fails with the capacity error and leaves the state untouched (the source
counts all rows, and active rows are a subset of all rows); and on every
state reachable through the managers the active twitter accounts never
exceed 10. -/
theorem twitter_capacity (db : DB) (now u d : String) :
    (10 ≤ activeTwitterCount db →
      monitorAddTwitter db now u d =
        ([("status", J.str "error"), ("message", J.str "Maximum 10 accounts reached")], db)) ∧
    (Reachable db → activeTwitterCount db ≤ 10) := by
  constructor
  · intro h
    have hlen : db.twitter.length ≥ 10 := le_trans h (List.length_filter_le _ _)
    simp only [monitorAddTwitter]
    rw [if_pos hlen]
  · intro h
    exact le_trans (List.length_filter_le _ _) (reachable_twitter_le db h)

/-- One stored monitored account, for witness states. -/
def twAcct (i : Nat) (u : String) : TwitterAccount :=
  { id := i, username := u, description := "", is_active := true, created_at := "t" }

/-- A state with ten active twitter accounts stored. -/
def db10 : DB :=
  { emptyDB with
    twitter := [twAcct 1 "a1", twAcct 2 "a2", twAcct 3 "a3", twAcct 4 "a4", twAcct 5 "a5",
      twAcct 6 "a6", twAcct 7 "a7", twAcct 8 "a8", twAcct 9 "a9", twAcct 10 "a10"]
    nextTwitter := 11 }

/-- C3 witness: the eleventh add on ten active accounts fails. -/
theorem twitter_capacity_witness :
    10 ≤ activeTwitterCount db10 ∧
    monitorAddTwitter db10 "t" "eleventh" "" =
      ([("status", J.str "error"), ("message", J.str "Maximum 10 accounts reached")], db10) :=
  ⟨by decide, (twitter_capacity db10 "t" "eleventh" "").1 (by decide)⟩

/-- C4: below the capacity cap, add_twitter fails with the duplicate error
and inserts nothing whenever the normalized username (leading at-signs
stripped, then surrounding whitespace) equals a stored username exactly. -/
theorem twitter_duplicate (db : DB) (now u d : String)
    (hcap : db.twitter.length < 10)
    (hdup : ∃ a ∈ db.twitter, a.username = normalizeTwitter u) :
    monitorAddTwitter db now u d =
      ([("status", J.str "error"), ("message", J.str "Account already exists")], db) := by
  simp only [monitorAddTwitter]
  rw [if_neg (by omega : ¬ db.twitter.length ≥ 10)]
  have hfind : (db.twitter.find? (fun a => a.username == normalizeTwitter u)).isSome = true := by
    rw [List.find?_isSome]
    obtain ⟨a, ha, he⟩ := hdup
    exact ⟨a, ha, by simp [he]⟩
  rw [if_pos hfind]

/-- A state holding the single account alice. -/
def db1alice : DB := { emptyDB with twitter := [twAcct 1 "alice"], nextTwitter := 2 }

/-- C4 witness: after storing alice, adding at-alice fails as a duplicate. -/
theorem twitter_duplicate_witness :
    db1alice.twitter.length < 10 ∧
    monitorAddTwitter db1alice "t2" "@alice" "" =
      ([("status", J.str "error"), ("message", J.str "Account already exists")], db1alice) :=
  ⟨by decide,
   twitter_duplicate db1alice "t2" "@alice" "" (by decide)
     ⟨twAcct 1 "alice", by decide, by decide⟩⟩

/-- Formalization of the spec phrase "no scheme present", following generic
URI syntax: a scheme is a leading alphabetic character, continued by
letters, digits, plus, hyphen or dot, terminated by a colon.  Used only to
compare the spec wording with the source check. -/
def specSchemePresent (s : String) : Bool :=
  match s.data with
  | [] => false
  | c :: _ =>
      c.isAlpha &&
      ((s.data.dropWhile (fun ch => ch.isAlpha || ch.isDigit || ch == '+' || ch == '-' || ch == '.')).head?
        == some ':')

/-- C5 counterexample: ftp://example.com carries a scheme, yet add_news
still prefixes https://, storing https://ftp://example.com, so the url is
not persisted unchanged as the claim states for scheme-bearing urls. -/
theorem news_scheme_counterexample :
    specSchemePresent "ftp://example.com" = true ∧
    (monitorAddNews emptyDB "t" "Src" "ftp://example.com" "").2.news.map (fun s => s.url) =
      ["https://ftp://example.com"] ∧
    normalizeNewsUrl "ftp://example.com" ≠ "ftp://example.com" :=
  ⟨rfl, rfl, by decide⟩

/-- C5 (amended): add_news prefixes https:// exactly when the url starts
with neither http:// nor https:// (any other scheme included), and every
inserted row stores the normalized value. -/
theorem news_url_normalization (db : DB) (now name url d : String) :
    ((pathHasPre "http://" url || pathHasPre "https://" url) = false →
      normalizeNewsUrl url = "https://" ++ url) ∧
    ((pathHasPre "http://" url || pathHasPre "https://" url) = true →
      normalizeNewsUrl url = url) ∧
    ((monitorAddNews db now name url d).2.news = db.news ∨
      (monitorAddNews db now name url d).2.news.map (fun s => s.url) =
        db.news.map (fun s => s.url) ++ [normalizeNewsUrl url]) := by
  refine ⟨?_, ?_, ?_⟩
  · intro h
    simp [normalizeNewsUrl, h]
  · intro h
    simp [normalizeNewsUrl, h]
  · simp only [monitorAddNews]
    split
    · left; rfl
    · split
      · left; rfl
      · right; simp

/-- C5 witness: the two concrete normalizations of the claim. -/
theorem news_url_normalization_witness :
    normalizeNewsUrl "example.com" = "https://example.com" ∧
    normalizeNewsUrl "http://example.com" = "http://example.com" :=
  ⟨(news_url_normalization emptyDB "t" "n" "example.com" "").1 (by decide),
   (news_url_normalization emptyDB "t" "n" "http://example.com" "").2.1 (by decide)⟩

/-- A state with a single subject whose status is New. -/
def dbC8 : DB := { emptyDB with subjects := [subjOne], nextSubject := 2 }

/-- C8 counterexample: filtering on the empty status value returns rows of
other statuses, because a falsy filter is dropped by the manager; so
get_all with status S does not return only rows of status S for every S. -/
theorem status_filter_counterexample :
    subjectGetAll dbC8 (some "") none = [subjOne] ∧ subjOne.status ≠ "" :=
  ⟨rfl, by decide⟩

/-- C8 (amended): for every non-empty status value S the filtered listing
returns only subjects of status S; and the unfiltered listing length, the
statistics total, and the sum of the per-status group counts all agree. -/
theorem status_filter_and_stats (db : DB) (S : String) (hS : S ≠ "") :
    (∀ r ∈ subjectGetAll db (some S) none, r.status = S) ∧
    (subjectGetAll db none none).length = (subjectStatistics db).total ∧
    ((subjectStatistics db).by_status.map (fun p => p.2)).sum = (subjectStatistics db).total := by
  have hb : (S == "") = false := beq_eq_false_iff_ne.mpr hS
  refine ⟨?_, ?_, ?_⟩
  · intro r hr
    unfold subjectGetAll at hr
    rw [mem_sortDescBy] at hr
    have h2 := (List.mem_filter.mp hr).2
    simp only [filterPass, hb, Bool.and_eq_true, if_false] at h2
    exact beq_iff_eq.mp h2.1
  · unfold subjectGetAll subjectStatistics
    rw [length_sortDescBy]
    have hpred : (fun (r : Subject) =>
        filterPass none r.status && filterPass none r.risk_level) = (fun _ => true) := rfl
    rw [hpred, filter_const_true]
  · unfold subjectStatistics
    simp only [List.map_map, Function.comp]
    have := List.sum_map_count_dedup_eq_length (db.subjects.map (fun r => r.status))
    simpa using this

/-- C8 witness: a concrete run of the amended statement. -/
theorem status_filter_and_stats_witness :
    ("New" : String) ≠ "" ∧
    (subjectGetAll dbC8 none none).length = (subjectStatistics dbC8).total :=
  ⟨by decide, (status_filter_and_stats dbC8 "New" (by decide)).2.1⟩

/-- An error result of add_twitter leaves the database untouched. -/
theorem addTwitter_err_db (db : DB) (now u d msg : String)
    (h : (monitorAddTwitter db now u d).1 =
      [("status", J.str "error"), ("message", J.str msg)]) :
    (monitorAddTwitter db now u d).2 = db := by
  by_cases h1 : db.twitter.length ≥ 10
  · simp only [monitorAddTwitter, if_pos h1]
  · by_cases h2 : (db.twitter.find? (fun a => a.username == normalizeTwitter u)).isSome = true
    · simp only [monitorAddTwitter, if_neg h1, if_pos h2]
    · exfalso
      simp only [monitorAddTwitter, if_neg h1, if_neg h2] at h
      simp at h

/-- An error result of add_news leaves the database untouched. -/
theorem addNews_err_db (db : DB) (now n url d msg : String)
    (h : (monitorAddNews db now n url d).1 =
      [("status", J.str "error"), ("message", J.str msg)]) :
    (monitorAddNews db now n url d).2 = db := by
  by_cases h1 : db.news.length ≥ 10
  · simp only [monitorAddNews, if_pos h1]
  · by_cases h2 : (db.news.find? (fun s => s.url == normalizeNewsUrl url)).isSome = true
    · simp only [monitorAddNews, if_neg h1, if_pos h2]
    · exfalso
      simp only [monitorAddNews, if_neg h1, if_neg h2] at h
      simp at h

/-- C6: a capacity or duplicate error dict coming out of the Monitor
Manager is serialized verbatim by send_json with the default HTTP status
200, for both monitor POST routes; nothing maps it to a 4xx. -/
theorem monitor_errors_http200 (db : DB) (now : String)
    (body : List (String × String)) (msg : String) :
    ((monitorAddTwitter db now (bget body "username" "") (bget body "description" "")).1 =
        [("status", J.str "error"), ("message", J.str msg)] →
      handle db now { method := Method.post, path := "/api/monitor/twitter", body := body } =
        (⟨200, RespBody.json (J.obj [("status", J.str "error"), ("message", J.str msg)])⟩, db)) ∧
    ((monitorAddNews db now (bget body "name" "") (bget body "url" "")
          (bget body "description" "")).1 =
        [("status", J.str "error"), ("message", J.str msg)] →
      handle db now { method := Method.post, path := "/api/monitor/news", body := body } =
        (⟨200, RespBody.json (J.obj [("status", J.str "error"), ("message", J.str msg)])⟩, db)) := by
  constructor
  · intro h
    have hdb := addTwitter_err_db db now (bget body "username" "") (bget body "description" "") msg h
    have hred : handle db now { method := Method.post, path := "/api/monitor/twitter", body := body } =
        (⟨200, RespBody.json (J.obj (monitorAddTwitter db now (bget body "username" "")
          (bget body "description" "")).1)⟩,
         (monitorAddTwitter db now (bget body "username" "") (bget body "description" "")).2) := rfl
    rw [hred, h, hdb]
  · intro h
    have hdb := addNews_err_db db now (bget body "name" "") (bget body "url" "")
      (bget body "description" "") msg h
    have hred : handle db now { method := Method.post, path := "/api/monitor/news", body := body } =
        (⟨200, RespBody.json (J.obj (monitorAddNews db now (bget body "name" "")
          (bget body "url" "") (bget body "description" "")).1)⟩,
         (monitorAddNews db now (bget body "name" "") (bget body "url" "")
          (bget body "description" "")).2) := rfl
    rw [hred, h, hdb]

/-- C6 witness: the capacity error on a full state surfaces as HTTP 200. -/
theorem monitor_errors_http200_witness :
    handle db10 "t"
      { method := Method.post
        path := "/api/monitor/twitter"
        body := [("username", "newguy")] } =
      (⟨200, RespBody.json (J.obj [("status", J.str "error"),
        ("message", J.str "Maximum 10 accounts reached")])⟩, db10) :=
  (monitor_errors_http200 db10 "t" [("username", "newguy")]
    "Maximum 10 accounts reached").1 (by rfl)

/-- C2: generate_all is a pure function of (name, name_fa); its category
keys are exactly linkedin, sanctions, corporate, social_media, web_search,
with persian appended exactly when name_fa is non-empty; and every
generated URL is non-empty and contains the percent-encoded name (the
persian URLs the percent-encoded name_fa). -/
theorem generateAll_keys_and_urls (name name_fa : String) (_hname : name ≠ "") :
    ((generateAll name name_fa).map Prod.fst =
      ["linkedin", "sanctions", "corporate", "social_media", "web_search"] ++
        (if name_fa = "" then [] else ["persian"])) ∧
    ∀ p ∈ generateAll name name_fa, ∀ kv ∈ p.2,
      kv.2 ≠ "" ∧ SubIn (pyQuote (if p.1 = "persian" then name_fa else name)) kv.2 := by
  by_cases hfa : name_fa = ""
  · subst hfa
    constructor
    · simp [generateAll]
    · intro p hp
      simp only [generateAll] at hp
      fin_cases hp <;> intro kv hkv <;> fin_cases hkv <;>
        exact ⟨by first
            | exact ne_empty_left _ _ (by decide)
            | exact ne_empty_left _ _ (ne_empty_left _ _ (by decide)),
          by first
            | exact subIn_end _ _
            | exact subIn_simple _ _ _
            | exact subIn_wrapped_end _ _ _ _⟩
  · have hb : (name_fa == "") = false := beq_eq_false_iff_ne.mpr hfa
    constructor
    · simp [generateAll, hb, hfa]
    · intro p hp
      simp only [generateAll, hb] at hp
      simp only [Bool.false_eq_true, if_false, List.append_eq] at hp
      fin_cases hp <;> intro kv hkv <;> fin_cases hkv <;>
        exact ⟨by first
            | exact ne_empty_left _ _ (by decide)
            | exact ne_empty_left _ _ (ne_empty_left _ _ (by decide)),
          by first
            | exact subIn_end _ _
            | exact subIn_simple _ _ _
            | exact subIn_wrapped_end _ _ _ _⟩

/-- C2 witness: the concrete run on Ali Khamenei without a localized name. -/
theorem generateAll_keys_and_urls_witness :
    ("Ali Khamenei" : String) ≠ "" ∧
    (generateAll "Ali Khamenei" "").map Prod.fst =
      ["linkedin", "sanctions", "corporate", "social_media", "web_search"] :=
  ⟨by decide, by
    have h := (generateAll_keys_and_urls "Ali Khamenei" "" (by decide)).1
    simpa using h⟩

/-- C7 counterexample: GET on an id-bearing monitor route with a
non-integer trailing segment does NOT yield 400 {error: Invalid ID}: the
route is simply unmatched in do_GET and falls through to the bare 404. -/
theorem invalid_id_counterexample :
    handle emptyDB "t" { method := Method.get, path := "/api/monitor/twitter/abc" } =
      (notFoundResp, emptyDB) ∧ notFoundResp.code = 404 ∧ (404 : Nat) ≠ 400 :=
  ⟨rfl, rfl, by decide⟩

/-- C7 (amended): a non-integer trailing id segment yields 400 with body
{error: Invalid ID} exactly on the routes the handlers match: GET on
subjects and findings ids and DELETE on all five id routes; PUT on
subjects ids yields 400 with the int() ValueError text instead; GET on the
monitor and contacts id routes and PUT on the other id routes are
unmatched and yield the bare 404. -/
theorem invalid_id_routing (db : DB) (now : String) (seg : String)
    (hseg : pyInt seg = none)
    (hns : ∀ c ∈ seg.data, (!(c == '/')) = true) :
    (handle db now { method := Method.get, path := "/api/subjects/" ++ seg } = (invalidIdResp, db)) ∧
    (handle db now { method := Method.get, path := "/api/findings/" ++ seg } = (invalidIdResp, db)) ∧
    (handle db now { method := Method.delete, path := "/api/subjects/" ++ seg } = (invalidIdResp, db)) ∧
    (handle db now { method := Method.delete, path := "/api/monitor/twitter/" ++ seg } = (invalidIdResp, db)) ∧
    (handle db now { method := Method.delete, path := "/api/monitor/news/" ++ seg } = (invalidIdResp, db)) ∧
    (handle db now { method := Method.delete, path := "/api/findings/" ++ seg } = (invalidIdResp, db)) ∧
    (handle db now { method := Method.delete, path := "/api/contacts/" ++ seg } = (invalidIdResp, db)) ∧
    (handle db now { method := Method.put, path := "/api/subjects/" ++ seg } =
      (⟨400, RespBody.json (J.obj [("error", J.str (intErrMsg seg))])⟩, db)) ∧
    (handle db now { method := Method.get, path := "/api/monitor/twitter/" ++ seg } = (notFoundResp, db)) ∧
    (handle db now { method := Method.get, path := "/api/monitor/news/" ++ seg } = (notFoundResp, db)) ∧
    (seg ≠ "user" →
      handle db now { method := Method.get, path := "/api/contacts/" ++ seg } = (notFoundResp, db)) ∧
    (handle db now { method := Method.put, path := "/api/monitor/twitter/" ++ seg } = (notFoundResp, db)) ∧
    (handle db now { method := Method.put, path := "/api/monitor/news/" ++ seg } = (notFoundResp, db)) ∧
    (handle db now { method := Method.put, path := "/api/findings/" ++ seg } = (notFoundResp, db)) ∧
    (handle db now { method := Method.put, path := "/api/contacts/" ++ seg } = (notFoundResp, db)) := by
  have hsub : lastSeg ("/api/subjects/" ++ seg) = seg :=
    lastSeg_of_append _ _ (by decide) hns
  have hfin : lastSeg ("/api/findings/" ++ seg) = seg :=
    lastSeg_of_append _ _ (by decide) hns
  have htw : lastSeg ("/api/monitor/twitter/" ++ seg) = seg :=
    lastSeg_of_append _ _ (by decide) hns
  have hnw : lastSeg ("/api/monitor/news/" ++ seg) = seg :=
    lastSeg_of_append _ _ (by decide) hns
  have hct : lastSeg ("/api/contacts/" ++ seg) = seg :=
    lastSeg_of_append _ _ (by decide) hns
  refine ⟨?_, ?_, ?_, ?_, ?_, ?_, ?_, ?_, ?_, ?_, ?_, ?_, ?_, ?_, ?_⟩
  · -- GET /api/subjects/{seg}
    have c1 : (("/api/subjects/" ++ seg) == "/") = false := append_ne_lit _ _ _ (by decide)
    have c2 : (("/api/subjects/" ++ seg) == "/index.html") = false := append_ne_lit _ _ _ (by decide)
    have c3 : (("/api/subjects/" ++ seg) == "/api/subjects") = false := append_ne_lit _ _ _ (by decide)
    have c4 : pathHasPre "/api/subjects/" ("/api/subjects/" ++ seg) = true := pathHasPre_append _ _
    simp [handle, doGET, c1, c2, c3, c4, hsub, hseg]
  · -- GET /api/findings/{seg}
    have c1 : (("/api/findings/" ++ seg) == "/") = false := append_ne_lit _ _ _ (by decide)
    have c2 : (("/api/findings/" ++ seg) == "/index.html") = false := append_ne_lit _ _ _ (by decide)
    have c3 : (("/api/findings/" ++ seg) == "/api/subjects") = false := append_ne_lit _ _ _ (by decide)
    have c4 : pathHasPre "/api/subjects/" ("/api/findings/" ++ seg) = false :=
      pathHasPre_of_ne _ _ _ (by decide) (by decide)
    have c5 : (("/api/findings/" ++ seg) == "/api/search") = false := append_ne_lit _ _ _ (by decide)
    have c6 : (("/api/findings/" ++ seg) == "/api/stats") = false := append_ne_lit _ _ _ (by decide)
    have c7 : (("/api/findings/" ++ seg) == "/api/monitor/twitter") = false := append_ne_lit _ _ _ (by decide)
    have c8 : (("/api/findings/" ++ seg) == "/api/monitor/news") = false := append_ne_lit _ _ _ (by decide)
    have c9 : (("/api/findings/" ++ seg) == "/api/findings") = false := append_ne_lit _ _ _ (by decide)
    have c10 : pathHasPre "/api/findings/" ("/api/findings/" ++ seg) = true := pathHasPre_append _ _
    simp [handle, doGET, c1, c2, c3, c4, c5, c6, c7, c8, c9, c10, hfin, hseg]
  · -- DELETE /api/subjects/{seg}
    have c1 : pathHasPre "/api/subjects/" ("/api/subjects/" ++ seg) = true := pathHasPre_append _ _
    simp [handle, doDELETE, c1, hsub, hseg]
  · -- DELETE /api/monitor/twitter/{seg}
    have c1 : pathHasPre "/api/subjects/" ("/api/monitor/twitter/" ++ seg) = false :=
      pathHasPre_of_ne _ _ _ (by decide) (by decide)
    have c2 : pathHasPre "/api/monitor/twitter/" ("/api/monitor/twitter/" ++ seg) = true :=
      pathHasPre_append _ _
    simp [handle, doDELETE, c1, c2, htw, hseg]
  · -- DELETE /api/monitor/news/{seg}
    have c1 : pathHasPre "/api/subjects/" ("/api/monitor/news/" ++ seg) = false :=
      pathHasPre_of_ne _ _ _ (by decide) (by decide)
    have c2 : pathHasPre "/api/monitor/twitter/" ("/api/monitor/news/" ++ seg) = false :=
      pathHasPre_of_ne2 _ _ _ 14 (by decide) (by decide) (by decide)
    have c3 : pathHasPre "/api/monitor/news/" ("/api/monitor/news/" ++ seg) = true :=
      pathHasPre_append _ _
    simp [handle, doDELETE, c1, c2, c3, hnw, hseg]
  · -- DELETE /api/findings/{seg}
    have c1 : pathHasPre "/api/subjects/" ("/api/findings/" ++ seg) = false :=
      pathHasPre_of_ne _ _ _ (by decide) (by decide)
    have c2 : pathHasPre "/api/monitor/twitter/" ("/api/findings/" ++ seg) = false :=
      pathHasPre_of_ne2 _ _ _ 14 (by decide) (by decide) (by decide)
    have c3 : pathHasPre "/api/monitor/news/" ("/api/findings/" ++ seg) = false :=
      pathHasPre_of_ne2 _ _ _ 14 (by decide) (by decide) (by decide)
    have c4 : pathHasPre "/api/findings/" ("/api/findings/" ++ seg) = true := pathHasPre_append _ _
    simp [handle, doDELETE, c1, c2, c3, c4, hfin, hseg]
  · -- DELETE /api/contacts/{seg}
    have c1 : pathHasPre "/api/subjects/" ("/api/contacts/" ++ seg) = false :=
      pathHasPre_of_ne _ _ _ (by decide) (by decide)
    have c2 : pathHasPre "/api/monitor/twitter/" ("/api/contacts/" ++ seg) = false :=
      pathHasPre_of_ne2 _ _ _ 14 (by decide) (by decide) (by decide)
    have c3 : pathHasPre "/api/monitor/news/" ("/api/contacts/" ++ seg) = false :=
      pathHasPre_of_ne2 _ _ _ 14 (by decide) (by decide) (by decide)
    have c4 : pathHasPre "/api/findings/" ("/api/contacts/" ++ seg) = false :=
      pathHasPre_of_ne _ _ _ (by decide) (by decide)
    have c5 : pathHasPre "/api/contacts/" ("/api/contacts/" ++ seg) = true := pathHasPre_append _ _
    simp [handle, doDELETE, c1, c2, c3, c4, c5, hct, hseg]
  · -- PUT /api/subjects/{seg}
    have c1 : pathHasPre "/api/subjects/" ("/api/subjects/" ++ seg) = true := pathHasPre_append _ _
    simp [handle, doPUT, c1, hsub, hseg]
  · -- GET /api/monitor/twitter/{seg}: unmatched, 404
    have c1 : (("/api/monitor/twitter/" ++ seg) == "/") = false := append_ne_lit _ _ _ (by decide)
    have c2 : (("/api/monitor/twitter/" ++ seg) == "/index.html") = false := append_ne_lit _ _ _ (by decide)
    have c3 : (("/api/monitor/twitter/" ++ seg) == "/api/subjects") = false := append_ne_lit _ _ _ (by decide)
    have c4 : pathHasPre "/api/subjects/" ("/api/monitor/twitter/" ++ seg) = false :=
      pathHasPre_of_ne _ _ _ (by decide) (by decide)
    have c5 : (("/api/monitor/twitter/" ++ seg) == "/api/search") = false := append_ne_lit _ _ _ (by decide)
    have c6 : (("/api/monitor/twitter/" ++ seg) == "/api/stats") = false := append_ne_lit _ _ _ (by decide)
    have c7 : (("/api/monitor/twitter/" ++ seg) == "/api/monitor/twitter") = false := append_ne_lit _ _ _ (by decide)
    have c8 : (("/api/monitor/twitter/" ++ seg) == "/api/monitor/news") = false := append_ne_lit _ _ _ (by decide)
    have c9 : (("/api/monitor/twitter/" ++ seg) == "/api/findings") = false := append_ne_lit _ _ _ (by decide)
    have c10 : pathHasPre "/api/findings/" ("/api/monitor/twitter/" ++ seg) = false :=
      pathHasPre_of_ne _ _ _ (by decide) (by decide)
    have c11 : (("/api/monitor/twitter/" ++ seg) == "/api/contacts/user") = false := append_ne_lit _ _ _ (by decide)
    simp [handle, doGET, c1, c2, c3, c4, c5, c6, c7, c8, c9, c10, c11]
  · -- GET /api/monitor/news/{seg}: unmatched, 404
    have c1 : (("/api/monitor/news/" ++ seg) == "/") = false := append_ne_lit _ _ _ (by decide)
    have c2 : (("/api/monitor/news/" ++ seg) == "/index.html") = false := append_ne_lit _ _ _ (by decide)
    have c3 : (("/api/monitor/news/" ++ seg) == "/api/subjects") = false := append_ne_lit _ _ _ (by decide)
    have c4 : pathHasPre "/api/subjects/" ("/api/monitor/news/" ++ seg) = false :=
      pathHasPre_of_ne _ _ _ (by decide) (by decide)
    have c5 : (("/api/monitor/news/" ++ seg) == "/api/search") = false := append_ne_lit _ _ _ (by decide)
    have c6 : (("/api/monitor/news/" ++ seg) == "/api/stats") = false := append_ne_lit _ _ _ (by decide)
    have c7 : (("/api/monitor/news/" ++ seg) == "/api/monitor/twitter") = false := append_ne_lit _ _ _ (by decide)
    have c8 : (("/api/monitor/news/" ++ seg) == "/api/monitor/news") = false := append_ne_lit _ _ _ (by decide)
    have c9 : (("/api/monitor/news/" ++ seg) == "/api/findings") = false := append_ne_lit _ _ _ (by decide)
    have c10 : pathHasPre "/api/findings/" ("/api/monitor/news/" ++ seg) = false :=
      pathHasPre_of_ne _ _ _ (by decide) (by decide)
    have c11 : (("/api/monitor/news/" ++ seg) == "/api/contacts/user") = false := append_ne_lit _ _ _ (by decide)
    simp [handle, doGET, c1, c2, c3, c4, c5, c6, c7, c8, c9, c10, c11]
  · -- GET /api/contacts/{seg}, seg other than user: unmatched, 404
    intro hu
    have c1 : (("/api/contacts/" ++ seg) == "/") = false := append_ne_lit _ _ _ (by decide)
    have c2 : (("/api/contacts/" ++ seg) == "/index.html") = false := append_ne_lit _ _ _ (by decide)
    have c3 : (("/api/contacts/" ++ seg) == "/api/subjects") = false := append_ne_lit _ _ _ (by decide)
    have c4 : pathHasPre "/api/subjects/" ("/api/contacts/" ++ seg) = false :=
      pathHasPre_of_ne _ _ _ (by decide) (by decide)
    have c5 : (("/api/contacts/" ++ seg) == "/api/search") = false := append_ne_lit _ _ _ (by decide)
    have c6 : (("/api/contacts/" ++ seg) == "/api/stats") = false := append_ne_lit _ _ _ (by decide)
    have c7 : (("/api/contacts/" ++ seg) == "/api/monitor/twitter") = false := append_ne_lit _ _ _ (by decide)
    have c8 : (("/api/contacts/" ++ seg) == "/api/monitor/news") = false := append_ne_lit _ _ _ (by decide)
    have c9 : (("/api/contacts/" ++ seg) == "/api/findings") = false := append_ne_lit _ _ _ (by decide)
    have c10 : pathHasPre "/api/findings/" ("/api/contacts/" ++ seg) = false :=
      pathHasPre_of_ne _ _ _ (by decide) (by decide)
    have c11 : (("/api/contacts/" ++ seg) == "/api/contacts/user") = false := append_lit_ne _ _ _ hu
    simp [handle, doGET, c1, c2, c3, c4, c5, c6, c7, c8, c9, c10, c11]
  · -- PUT /api/monitor/twitter/{seg}: unmatched, 404
    have c1 : pathHasPre "/api/subjects/" ("/api/monitor/twitter/" ++ seg) = false :=
      pathHasPre_of_ne _ _ _ (by decide) (by decide)
    simp [handle, doPUT, c1]
  · -- PUT /api/monitor/news/{seg}: unmatched, 404
    have c1 : pathHasPre "/api/subjects/" ("/api/monitor/news/" ++ seg) = false :=
      pathHasPre_of_ne _ _ _ (by decide) (by decide)
    simp [handle, doPUT, c1]
  · -- PUT /api/findings/{seg}: unmatched, 404
    have c1 : pathHasPre "/api/subjects/" ("/api/findings/" ++ seg) = false :=
      pathHasPre_of_ne _ _ _ (by decide) (by decide)
    simp [handle, doPUT, c1]
  · -- PUT /api/contacts/{seg}: unmatched, 404
    have c1 : pathHasPre "/api/subjects/" ("/api/contacts/" ++ seg) = false :=
      pathHasPre_of_ne _ _ _ (by decide) (by decide)
    simp [handle, doPUT, c1]

/-- C7 witness: a concrete run of the amended routing statement. -/
theorem invalid_id_routing_witness :
    pyInt "abc" = none ∧
    handle emptyDB "t" { method := Method.delete, path := "/api/subjects/" ++ "abc" } =
      (invalidIdResp, emptyDB) :=
  ⟨by decide, (invalid_id_routing emptyDB "t" "abc" (by decide) (by decide)).2.2.1⟩

end Osint
